import Mathlib

/-!
Shallow embedding of the synthetic data generation engine of the Greater
Boston smart-city dashboard (src/app.py), together with proofs about the
claims on its specification.

Modelling conventions:
* Machine floats are modelled by exact rationals.
* Every call into the random library is modelled by an explicit draw taken
  from a tape that is passed to the generator; `random.uniform a b` is
  `a + (b - a) * u` with the tape value `u` ranging over `[0, 1]`,
  `random.randint a b` maps a tape natural to the inclusive range `[a, b]`,
  normal and Poisson draws carry the tape value through unconstrained
  (their support is unbounded).
* `round(x, n)` is modelled by `pyRound`, rounding to `n` decimal places.
  No claim in this development depends on the tie-breaking direction.
* A raised Python exception is modelled by `Except.error`.
-/

/-- Python float round to `n` decimal digits, modelled on exact rationals as
floor of `x * 10 ^ n + 1 / 2` scaled back (round half up; no claim in this
development depends on the tie direction). -/
def pyRound (x : ℚ) (n : ℕ) : ℚ := (⌊x * 10 ^ n + 1 / 2⌋ : ℚ) / 10 ^ n

/-- Model of `random.uniform a b`: the tape value `u` is the underlying
`random.random()` draw, so the result is `a + (b - a) * u`. -/
def pyUniform (a b u : ℚ) : ℚ := a + (b - a) * u

/-- Model of `random.randint a b` (inclusive bounds): the tape natural is
reduced into the range `[a, b]`. -/
def pyRandint (a b : ℤ) (n : ℕ) : ℤ := a + (n : ℤ) % (b - a + 1)

/-- Model of `np.random.normal mu sigma`: the tape value `z` is the standard
normal draw, carried through as `mu + sigma * z` (support unbounded). -/
def pyNormal (mu sigma z : ℚ) : ℚ := mu + sigma * z

/-- Model of `random.choice` on a string list: the tape natural selects an
index; the lists in this program are never empty, the default is unreachable. -/
def pyChoiceD (l : List String) (n : ℕ) : String := l.getD (n % l.length) ""

/-- The error message CPython raises for the transit crowding and status
draws: `random.Random.choice` accepts a single sequence argument only. -/
def choiceWeightsErr : String :=
  "TypeError: choice() got an unexpected keyword argument weights"

/-- Models the source calls `random.choice(seq, weights=[...])` in
`simulate_mbta_data`. The standard library function `random.Random.choice`
takes exactly one sequence argument, so CPython raises a `TypeError` before
any element is drawn; the sequence, the weights and the tape draw are
recorded in the signature but never consumed. -/
def choice_with_weights (_l : List String) (_w : List ℚ) (_u : ℚ) :
    Except String String :=
  Except.error choiceWeightsErr

/-! ## Data model -/

/-- The `(hour, is_weekday)` view of `self.current_time` that every
generator reads, plus the timestamp copied into each record. -/
structure TemporalContext where
  timestamp : ℤ
  hour : ℕ
  isWeekday : Bool
deriving Repr, DecidableEq

/-- One entry of `BostonConfig.TRAFFIC_LOCATIONS`. -/
structure TrafficLocation where
  name : String
  lat : ℚ
  lon : ℚ
  neighborhood : String
deriving Repr, DecidableEq

/-- One entry of `BostonConfig.MBTA_LINES`. -/
structure LineInfo where
  name : String
  color : String
  stations : List String
deriving Repr, DecidableEq

/-- One entry of `BostonConfig.AQI_STATIONS`. -/
structure AqiStation where
  name : String
  lat : ℚ
  lon : ℚ
  stype : String
deriving Repr, DecidableEq

/-- One row appended by `simulate_traffic_data`. -/
structure TrafficRecord where
  location : String
  neighborhood : String
  latitude : ℚ
  longitude : ℚ
  congestion_index : ℚ
  average_speed_mph : ℚ
  incident_count : ℕ
  delay_minutes : ℚ
  timestamp : ℤ
  special_event : Option String
  traffic_volume : ℤ
deriving Repr, DecidableEq

/-- One row appended by `simulate_mbta_data` (were the crowding draw to
succeed). -/
structure TransitVehicle where
  vehicle_id : String
  line : String
  direction : String
  current_station : String
  delay_minutes : ℚ
  crowding_level : String
  speed_mph : ℚ
  timestamp : ℤ
  status : String
deriving Repr, DecidableEq

/-- One row appended by `simulate_air_quality_data`. -/
structure AirQualityRecord where
  station : String
  station_type : String
  latitude : ℚ
  longitude : ℚ
  aqi : ℤ
  category : String
  color : String
  pm25 : ℚ
  pm10 : ℚ
  no2 : ℚ
  o3 : ℚ
  weather_condition : String
  timestamp : ℤ
deriving Repr, DecidableEq

/-- The dictionary returned by `simulate_energy_data`. The last-but-two
field models the source key for the quotient of total demand by one and a
half times the base load. -/
structure EnergySnapshot where
  total_demand_mw : ℚ
  renewable_percentage : ℚ
  nuclear_percentage : ℚ
  natural_gas_percentage : ℚ
  other_percentage : ℚ
  grid_frequency : ℚ
  peak_load_quotient : ℚ
  outage_count : ℤ
  temperature_f : ℚ
deriving Repr, DecidableEq

/-! ## Static reference configuration (`BostonConfig`) -/

/-- `BostonConfig.TRAFFIC_LOCATIONS`. -/
def TRAFFIC_LOCATIONS : List TrafficLocation :=
  [⟨"Downtown Crossing", 42.3555, -71.0604, "Downtown"⟩,
   ⟨"Government Center", 42.3594, -71.0587, "Downtown"⟩,
   ⟨"Financial District", 42.3583, -71.0552, "Downtown"⟩,
   ⟨"Back Bay Station", 42.3477, -71.0752, "Back Bay"⟩,
   ⟨"Copley Square", 42.3495, -71.0773, "Back Bay"⟩,
   ⟨"Tobin Bridge", 42.3823, -71.0370, "North End"⟩,
   ⟨"Zakim Bridge", 42.3679, -71.0611, "North End"⟩,
   ⟨"Mass Ave Bridge", 42.3530, -71.0919, "Back Bay"⟩,
   ⟨"Longfellow Bridge", 42.3611, -71.0758, "Beacon Hill"⟩,
   ⟨"I-93 South", 42.3301, -71.0589, "South End"⟩,
   ⟨"I-90 (Mass Pike)", 42.3467, -71.0972, "Fenway"⟩,
   ⟨"Route 1 North", 42.3756, -71.0342, "Charlestown"⟩,
   ⟨"Harvard Square", 42.3744, -71.1190, "Cambridge"⟩,
   ⟨"Kendall Square", 42.3625, -71.0861, "Cambridge"⟩,
   ⟨"Porter Square", 42.3884, -71.1192, "Cambridge"⟩,
   ⟨"Lechmere", 42.3701, -71.0761, "Cambridge"⟩,
   ⟨"Logan Airport", 42.3656, -71.0096, "East Boston"⟩,
   ⟨"Fenway Park", 42.3467, -71.0972, "Fenway"⟩,
   ⟨"TD Garden", 42.3662, -71.0621, "North End"⟩,
   ⟨"Brookline Village", 42.3326, -71.1205, "Brookline"⟩,
   ⟨"Newton Centre", 42.3292, -71.1925, "Newton"⟩,
   ⟨"Quincy Center", 42.2519, -71.0052, "Quincy"⟩]

/-- `BostonConfig.MBTA_LINES`, in dictionary insertion order. -/
def MBTA_LINES : List LineInfo :=
  [⟨"Red", "#DA020E",
    ["Braintree", "Quincy Center", "South Station", "Park Street",
     "Harvard", "Porter", "Alewife"]⟩,
   ⟨"Orange", "#ED8B00",
    ["Forest Hills", "Back Bay", "Downtown Crossing",
     "State", "North Station", "Oak Grove"]⟩,
   ⟨"Blue", "#003DA5",
    ["Wonderland", "Airport", "Maverick", "State",
     "Government Center", "Bowdoin"]⟩,
   ⟨"Green-B", "#00843D",
    ["Boston College", "Cleveland Circle", "Kenmore",
     "Park Street", "Government Center"]⟩,
   ⟨"Green-C", "#00843D",
    ["Cleveland Circle", "Coolidge Corner", "Kenmore",
     "Park Street", "North Station"]⟩,
   ⟨"Green-D", "#00843D",
    ["Riverside", "Newton Highlands", "Brookline Hills",
     "Kenmore", "Park Street", "North Station"]⟩,
   ⟨"Green-E", "#00843D",
    ["Heath Street", "Northeastern", "Back Bay",
     "Park Street", "North Station"]⟩]

/-- `BostonConfig.AQI_STATIONS`. -/
def AQI_STATIONS : List AqiStation :=
  [⟨"Boston Common", 42.3549, -71.0649, "urban_park"⟩,
   ⟨"Harvard University", 42.3770, -71.1167, "institutional"⟩,
   ⟨"Logan Airport", 42.3656, -71.0096, "transportation"⟩,
   ⟨"I-93 Corridor", 42.3301, -71.0589, "highway"⟩,
   ⟨"Financial District", 42.3583, -71.0552, "business"⟩,
   ⟨"Cambridge Riverside", 42.3601, -71.0942, "residential"⟩,
   ⟨"Brookline Hills", 42.3319, -71.1289, "suburban"⟩,
   ⟨"Quincy Adams", 42.2331, -71.0070, "suburban"⟩]

/-! ## Traffic generator (`simulate_traffic_data`) -/

/-- The additive time-bucket chain of `simulate_traffic_data`, beginning at
the 0.2 floor: the weekday elif chain adds 0.5 (hours 7 to 9), 0.6
(17 to 19), 0.3 (10 to 16) or 0.2 (20 to 22); the weekend chain adds 0.3
(11 to 15) or 0.4 (19 to 23). -/
def base_congestion (hour : ℕ) (isWeekday : Bool) : ℚ :=
  if isWeekday then
    if 7 ≤ hour ∧ hour ≤ 9 then 0.2 + 0.5
    else if 17 ≤ hour ∧ hour ≤ 19 then 0.2 + 0.6
    else if 10 ≤ hour ∧ hour ≤ 16 then 0.2 + 0.3
    else if 20 ≤ hour ∧ hour ≤ 22 then 0.2 + 0.2
    else 0.2
  else
    if 11 ≤ hour ∧ hour ≤ 15 then 0.2 + 0.3
    else if 19 ≤ hour ∧ hour ≤ 23 then 0.2 + 0.4
    else 0.2

/-- Char-list test for the pattern appearing as a prefix, structurally
recursive so that concrete instances reduce. -/
def charsStartWith : List Char → List Char → Bool
  | _, [] => true
  | [], _ :: _ => false
  | c :: cs, p :: ps => c == p && charsStartWith cs ps

/-- Char-list substring occurrence test. -/
def charsContain (pat : List Char) : List Char → Bool
  | [] => pat.isEmpty
  | c :: cs => charsStartWith (c :: cs) pat || charsContain pat cs

/-- Substring test, modelling the Python `in` operator on strings (the
source only applies it to the non-empty patterns Bridge and Airport). -/
def strContains (s pat : String) : Bool := charsContain pat.data s.data

/-- The location-specific multiplier elif chain of `simulate_traffic_data`. -/
def location_multiplier (loc : TrafficLocation) : ℚ :=
  if strContains loc.name "Bridge" then 1.3
  else if loc.name = "Harvard Square" ∨ loc.name = "Kendall Square" ∨
      loc.name = "Downtown Crossing" then 1.2
  else if strContains loc.name "Airport" then 1.1
  else if loc.neighborhood = "Newton" ∨ loc.neighborhood = "Brookline" ∨
      loc.neighborhood = "Quincy" then 0.8
  else 1.0

/-- The draws one traffic location consumes: the Gaussian congestion noise,
the Poisson incident draw, the `random.random()` special-event roll, and the
tape natural behind the traffic-volume `randint`. -/
structure TrafficDraws where
  noise : ℚ
  incidentDraw : ℕ
  eventRoll : ℚ
  volumeDraw : ℕ
deriving Repr, DecidableEq

/-- The special-event tag chain of `simulate_traffic_data`: Fenway Park and
TD Garden each fire when their roll is below 0.1. -/
def special_event_of (name : String) (roll : ℚ) : Option String :=
  if name = "Fenway Park" ∧ roll < 0.1 then some "Red Sox Game"
  else if name = "TD Garden" ∧ roll < 0.1 then some "Bruins/Celtics Game"
  else none

/-- The congestion value after the special-event boost: the firing branches
replace `congestion` by `min 1 (congestion + 0.3)`. -/
def boosted_congestion (name : String) (roll : ℚ) (c : ℚ) : ℚ :=
  if name = "Fenway Park" ∧ roll < 0.1 then min 1 (c + 0.3)
  else if name = "TD Garden" ∧ roll < 0.1 then min 1 (c + 0.3)
  else c

/-- The row `simulate_traffic_data` appends for one location. Note that
`average_speed_mph` and `delay_minutes` are computed from the congestion
value BEFORE the special-event boost, while `congestion_index` stores the
boosted value; this mirrors the statement order in the source. -/
def traffic_record (ctx : TemporalContext) (loc : TrafficLocation)
    (d : TrafficDraws) : TrafficRecord :=
  let base := base_congestion ctx.hour ctx.isWeekday
  let mult := location_multiplier loc
  let congestion := max 0 (min 1 (base * mult + d.noise))
  let avg_speed := 35 * (1 - congestion)
  let delay := congestion * 15
  { location := loc.name
    neighborhood := loc.neighborhood
    latitude := loc.lat
    longitude := loc.lon
    congestion_index := pyRound (boosted_congestion loc.name d.eventRoll congestion) 3
    average_speed_mph := pyRound avg_speed 1
    incident_count := d.incidentDraw
    delay_minutes := pyRound delay 1
    timestamp := ctx.timestamp
    special_event := special_event_of loc.name d.eventRoll
    traffic_volume := pyRandint 500 3000 d.volumeDraw }

/-- `simulate_traffic_data`: one record per configured location, reading the
per-location draws off the tape. -/
def simulate_traffic_data (ctx : TemporalContext) (tape : ℕ → TrafficDraws) :
    List TrafficRecord :=
  TRAFFIC_LOCATIONS.enum.map (fun p => traffic_record ctx p.2 (tape p.1))

/-! ## Transit generator (`simulate_mbta_data`) -/

/-- The draws one transit vehicle consumes (the last four are dead code in
the source, which raises before reaching them). -/
structure VehicleDraws where
  stationIdx : ℕ
  delayZ : ℚ
  crowdU : ℚ
  dirIdx : ℕ
  speedU : ℚ
  statusU : ℚ
deriving Repr, DecidableEq

/-- The full tape of the transit generator: per-line fleet-size draws and
per-line, per-vehicle draws. -/
structure MbtaTape where
  numDraw : ℕ → ℕ
  vehicle : ℕ → ℕ → VehicleDraws

/-- The fleet-size draw of `simulate_mbta_data`: Red and Orange draw from
15 to 25, Blue from 8 to 12, the Green branches from 6 to 10. -/
def num_vehicles (line : LineInfo) (n : ℕ) : ℤ :=
  if line.name = "Red" ∨ line.name = "Orange" then pyRandint 15 25 n
  else if line.name = "Blue" then pyRandint 8 12 n
  else pyRandint 6 10 n

/-- The rush-hour test `7 <= hour <= 9 or 17 <= hour <= 19` shared by the
generators. -/
def is_rush (hour : ℕ) : Prop := (7 ≤ hour ∧ hour ≤ 9) ∨ (17 ≤ hour ∧ hour ≤ 19)

instance (hour : ℕ) : Decidable (is_rush hour) := by unfold is_rush; infer_instance

/-- The crowding draw of `simulate_mbta_data`: both branches call
`random.choice` with a `weights` keyword, which CPython rejects. -/
def crowding_draw (hour : ℕ) (u : ℚ) : Except String String :=
  if is_rush hour then
    choice_with_weights
      ["MANY_SEATS_AVAILABLE", "FEW_SEATS_AVAILABLE",
       "STANDING_ROOM_ONLY", "CRUSHED_STANDING_ROOM_ONLY"]
      [0.1, 0.3, 0.4, 0.2] u
  else
    choice_with_weights
      ["MANY_SEATS_AVAILABLE", "FEW_SEATS_AVAILABLE", "STANDING_ROOM_ONLY"]
      [0.5, 0.4, 0.1] u

/-- One iteration of the inner vehicle loop of `simulate_mbta_data`. The
crowding draw raises, so the tail of the body (direction, speed, status,
row construction) is dead code, retained here for faithfulness. -/
def build_vehicle (ctx : TemporalContext) (line : LineInfo) (d : VehicleDraws)
    (i : ℕ) : Except String TransitVehicle := do
  let current_station := pyChoiceD line.stations d.stationIdx
  let base_delay :=
    if is_rush ctx.hour then pyNormal 3 2 d.delayZ
    else if 10 ≤ ctx.hour ∧ ctx.hour ≤ 16 then pyNormal 1 1 d.delayZ
    else pyNormal 0.5 0.5 d.delayZ
  let delay := max 0 base_delay
  let crowding ← crowding_draw ctx.hour d.crowdU
  let status ← choice_with_weights ["On Time", "Delayed", "Approaching"]
    [0.6, 0.3, 0.1] d.statusU
  pure
    { vehicle_id := line.name.replace "-" "_" ++ "_train_" ++ toString (i + 1)
      line := line.name
      direction := pyChoiceD ["Inbound", "Outbound"] d.dirIdx
      current_station := current_station
      delay_minutes := pyRound delay 1
      crowding_level := crowding
      speed_mph := pyUniform 15 35 d.speedU
      timestamp := ctx.timestamp
      status := status }

/-- The fleet of one line: the inner loop of `simulate_mbta_data`. -/
def simulate_line (ctx : TemporalContext) (t : MbtaTape) (li : ℕ)
    (line : LineInfo) : Except String (List TransitVehicle) :=
  (List.range (num_vehicles line (t.numDraw li)).toNat).mapM
    (fun i => build_vehicle ctx line (t.vehicle li i) i)

/-- `simulate_mbta_data`: iterates the configured lines in dictionary order,
concatenating the per-line fleets. Since every fleet is non-empty and every
vehicle body raises at the crowding draw, the result is an error for every
context and tape. -/
def simulate_mbta_data (ctx : TemporalContext) (t : MbtaTape) :
    Except String (List TransitVehicle) := do
  let fleets ← MBTA_LINES.enum.mapM (fun p => simulate_line ctx t p.1 p.2)
  pure fleets.flatten

/-! ## Air quality generator (`simulate_air_quality_data`) -/

/-- The station-type baseline table, a dictionary lookup with default 50:
`{...}.get(station["type"], 50)`. -/
def base_aqi (t : String) : ℤ :=
  if t = "urban_park" then 40
  else if t = "suburban" then 35
  else if t = "residential" then 45
  else if t = "business" then 55
  else if t = "highway" then 65
  else if t = "transportation" then 70
  else if t = "institutional" then 40
  else 50

/-- The station types the baseline table recognizes. -/
def recognized_station_types : List String :=
  ["urban_park", "suburban", "residential", "business", "highway",
   "transportation", "institutional"]

/-- The five-entry weather table of `simulate_air_quality_data`, each entry
a condition name and an additive modifier. -/
def WEATHER_IMPACTS : List (String × ℤ) :=
  [("Clear", 0), ("Partly Cloudy", 5), ("Overcast", 10),
   ("Light Rain", -15), ("Windy", -10)]

/-- The AQI banding chain of `simulate_air_quality_data`, returning the
`(category, color)` pair. -/
def classify_aqi (aqi : ℤ) : String × String :=
  if aqi ≤ 50 then ("Good", "green")
  else if aqi ≤ 100 then ("Moderate", "yellow")
  else if aqi ≤ 150 then ("Unhealthy for Sensitive Groups", "orange")
  else if aqi ≤ 200 then ("Unhealthy", "red")
  else ("Very Unhealthy", "purple")

/-- The draws one monitoring station consumes. -/
structure AqiDraws where
  rushBoost : ℕ
  weatherIdx : ℕ
  jitter : ℕ
  pm25U : ℚ
  pm10U : ℚ
  no2U : ℚ
  o3U : ℚ
deriving Repr, DecidableEq

/-- The row `simulate_air_quality_data` appends for one station. The AQI is
`max(0, min(300, base + weather modifier + jitter))`; all the summands are
integers, so the final `round(aqi)` of the source is the identity here. -/
def aqi_record (ctx : TemporalContext) (st : AqiStation) (d : AqiDraws) :
    AirQualityRecord :=
  let base := base_aqi st.stype
  let base2 := if is_rush ctx.hour then base + pyRandint 10 25 d.rushBoost else base
  let weather := WEATHER_IMPACTS.getD (d.weatherIdx % WEATHER_IMPACTS.length)
    ("Clear", 0)
  let aqi : ℤ := max 0 (min 300 (base2 + weather.2 + pyRandint (-10) 15 d.jitter))
  let cc := classify_aqi aqi
  { station := st.name
    station_type := st.stype
    latitude := st.lat
    longitude := st.lon
    aqi := aqi
    category := cc.1
    color := cc.2
    pm25 := pyRound ((aqi : ℚ) * 0.4 + pyUniform (-5) 5 d.pm25U) 1
    pm10 := pyRound ((aqi : ℚ) * 0.7 + pyUniform (-8) 8 d.pm10U) 1
    no2 := pyRound (pyUniform 10 50 d.no2U) 1
    o3 := pyRound (pyUniform 15 80 d.o3U) 1
    weather_condition := weather.1
    timestamp := ctx.timestamp }

/-- `simulate_air_quality_data`, abstracted over the injected station list
(the source reads the static `config.AQI_STATIONS`). -/
def simulate_air_quality_data (stations : List AqiStation)
    (ctx : TemporalContext) (tape : ℕ → AqiDraws) : List AirQualityRecord :=
  stations.enum.map (fun p => aqi_record ctx p.2 (tape p.1))

/-! ## Energy generator (`simulate_energy_data`) -/

/-- The draws one energy snapshot consumes. -/
structure EnergyDraws where
  tempU : ℚ
  noiseU : ℚ
  renewU : ℚ
  nukeU : ℚ
  gasU : ℚ
  freqU : ℚ
  outageDraw : ℕ
deriving Repr, DecidableEq

/-- The demand-multiplier elif chain of `simulate_energy_data`. -/
def demand_multiplier (hour : ℕ) (isWeekday : Bool) : ℚ :=
  if isWeekday then
    if 8 ≤ hour ∧ hour ≤ 18 then 1.3
    else if (6 ≤ hour ∧ hour ≤ 8) ∨ (18 ≤ hour ∧ hour ≤ 22) then 1.4
    else 0.8
  else
    if 10 ≤ hour ∧ hour ≤ 16 then 1.1
    else if 18 ≤ hour ∧ hour ≤ 23 then 1.2
    else 0.9

/-- The ambient temperature draw `random.uniform(15, 30)` (Celsius). -/
def energy_temp (d : EnergyDraws) : ℚ := pyUniform 15 30 d.tempU

/-- The weather adjustment of `simulate_energy_data`: add 0.2 above 27
degrees (cooling) and 0.15 below 5 degrees (heating). -/
def heat_adjust (dm temp : ℚ) : ℚ :=
  if temp > 27 then dm + 0.2
  else if temp < 5 then dm + 0.15
  else dm

/-- The weather adjustment with the heating branch deleted; used to state
that the heating branch of the source is dead code. -/
def heat_adjust_no_heating (dm temp : ℚ) : ℚ :=
  if temp > 27 then dm + 0.2 else dm

/-- `simulate_energy_data`: the single aggregate snapshot. -/
def simulate_energy_data (ctx : TemporalContext) (d : EnergyDraws) :
    EnergySnapshot :=
  let base_load : ℚ := 2500
  let dm := heat_adjust (demand_multiplier ctx.hour ctx.isWeekday) (energy_temp d)
  let total_demand := base_load * dm + pyUniform (-100) 100 d.noiseU
  let renewable_pct := pyUniform 0.25 0.40 d.renewU
  let nuclear_pct := pyUniform 0.20 0.30 d.nukeU
  let gas_pct := pyUniform 0.35 0.45 d.gasU
  let other_pct := 1 - (renewable_pct + nuclear_pct + gas_pct)
  { total_demand_mw := pyRound total_demand 1
    renewable_percentage := pyRound renewable_pct 3
    nuclear_percentage := pyRound nuclear_pct 3
    natural_gas_percentage := pyRound gas_pct 3
    other_percentage := pyRound other_pct 3
    grid_frequency := pyRound (60 + pyUniform (-0.05) 0.05 d.freqU) 3
    peak_load_quotient := pyRound (total_demand / (base_load * 1.5)) 3
    outage_count := pyRandint 0 5 d.outageDraw
    temperature_f := pyRound (energy_temp d * 9 / 5 + 32) 1 }

/-- The snapshot the generator would produce with the heating branch
deleted. -/
def simulate_energy_data_no_heating (ctx : TemporalContext) (d : EnergyDraws) :
    EnergySnapshot :=
  let base_load : ℚ := 2500
  let dm := heat_adjust_no_heating (demand_multiplier ctx.hour ctx.isWeekday)
    (energy_temp d)
  let total_demand := base_load * dm + pyUniform (-100) 100 d.noiseU
  let renewable_pct := pyUniform 0.25 0.40 d.renewU
  let nuclear_pct := pyUniform 0.20 0.30 d.nukeU
  let gas_pct := pyUniform 0.35 0.45 d.gasU
  let other_pct := 1 - (renewable_pct + nuclear_pct + gas_pct)
  { total_demand_mw := pyRound total_demand 1
    renewable_percentage := pyRound renewable_pct 3
    nuclear_percentage := pyRound nuclear_pct 3
    natural_gas_percentage := pyRound gas_pct 3
    other_percentage := pyRound other_pct 3
    grid_frequency := pyRound (60 + pyUniform (-0.05) 0.05 d.freqU) 3
    peak_load_quotient := pyRound (total_demand / (base_load * 1.5)) 3
    outage_count := pyRandint 0 5 d.outageDraw
    temperature_f := pyRound (energy_temp d * 9 / 5 + 32) 1 }

/-! ## Presentation-layer on-time computation -/

/-- The on-time computation of `display_overview` and
`display_mbta_analysis`:
`len(mbta_data[mbta_data["delay_minutes"] <= 2]) / len(mbta_data)`.
Python integer division by zero raises, modelled by the error branch. -/
def on_time_percentage (vehicles : List TransitVehicle) : Except String ℚ :=
  if vehicles.length = 0 then Except.error "ZeroDivisionError: division by zero"
  else Except.ok
    (((vehicles.filter (fun v => v.delay_minutes ≤ 2)).length : ℚ) /
      (vehicles.length : ℚ))

/-! ## One refresh cycle -/

/-- All the randomness one refresh cycle consumes, bundled. -/
structure SimTapes where
  traffic : ℕ → TrafficDraws
  mbta : MbtaTape
  aqi : ℕ → AqiDraws
  energy : EnergyDraws

/-- One refresh cycle: the four generator outputs for a given temporal
context and random tape. -/
def run_generators (ctx : TemporalContext) (t : SimTapes) :
    List TrafficRecord × Except String (List TransitVehicle) ×
      List AirQualityRecord × EnergySnapshot :=
  (simulate_traffic_data ctx t.traffic,
   simulate_mbta_data ctx t.mbta,
   simulate_air_quality_data AQI_STATIONS ctx t.aqi,
   simulate_energy_data ctx t.energy)

/-! ## Concrete tapes used by the witnesses and counterexamples -/

/-- A constant all-zero traffic tape. Note the zero event roll makes the
special events fire at Fenway Park and TD Garden. -/
def zeroTrafficDraws : TrafficDraws := ⟨0, 0, 0, 0⟩

/-- A traffic tape whose event roll is above the 0.1 bound, so no special
event fires. -/
def calmTrafficDraws : TrafficDraws := ⟨0, 0, 1/2, 0⟩

/-- A constant all-zero vehicle tape. -/
def zeroVehicleDraws : VehicleDraws := ⟨0, 0, 0, 0, 0, 0⟩

/-- A constant all-zero transit tape. -/
def zeroMbtaTape : MbtaTape := ⟨fun _ => 0, fun _ _ => zeroVehicleDraws⟩

/-- A constant all-zero air-quality tape. -/
def zeroAqiDraws : AqiDraws := ⟨0, 0, 0, 0, 0, 0, 0⟩

/-- An energy tape with the three mix draws at their upper ends: renewable
0.40, nuclear 0.30, gas 0.45. -/
def maxMixEnergyDraws : EnergyDraws := ⟨0, 0, 1, 1, 1, 0, 0⟩

/-- A bundled all-zero tape. -/
def zeroSimTapes : SimTapes :=
  ⟨fun _ => zeroTrafficDraws, zeroMbtaTape, fun _ => zeroAqiDraws,
   ⟨0, 0, 0, 0, 0, 0, 0⟩⟩

/-! ## Helper lemmas about the random primitives -/

theorem le_pyRandint {a b : ℤ} (h : a ≤ b) (n : ℕ) : a ≤ pyRandint a b n := by
  have hpos : (0 : ℤ) < b - a + 1 := by omega
  have := Int.emod_nonneg (n : ℤ) (by omega : (b - a + 1 : ℤ) ≠ 0)
  unfold pyRandint; omega

theorem pyRandint_le {a b : ℤ} (h : a ≤ b) (n : ℕ) : pyRandint a b n ≤ b := by
  have hpos : (0 : ℤ) < b - a + 1 := by omega
  have := Int.emod_lt_of_pos (n : ℤ) hpos
  unfold pyRandint; omega

theorem le_pyUniform {a b u : ℚ} (hab : a ≤ b) (h0 : 0 ≤ u) :
    a ≤ pyUniform a b u := by
  unfold pyUniform; nlinarith

theorem pyUniform_le {a b u : ℚ} (hab : a ≤ b) (h1 : u ≤ 1) :
    pyUniform a b u ≤ b := by
  unfold pyUniform; nlinarith

theorem pyRound_mono {x y : ℚ} (n : ℕ) (h : x ≤ y) :
    pyRound x n ≤ pyRound y n := by
  unfold pyRound
  have h10 : (0 : ℚ) < 10 ^ n := by positivity
  have hr : ⌊x * 10 ^ n + 1 / 2⌋ ≤ ⌊y * 10 ^ n + 1 / 2⌋ :=
    Int.floor_le_floor (by nlinarith)
  exact div_le_div_of_nonneg_right (by exact_mod_cast hr) h10.le

/-! ## Claim theorems -/

/-- C1: Two generation runs (traffic, transit, air quality, energy) that
use the same injected Temporal Context and the same fixed random source
produce identical record sets: the outputs are a deterministic function of
`(TemporalContext, reference configuration, random tape)` with no hidden
source of nondeterminism; every random draw the source makes is threaded
through the explicit tape, and no other input exists. -/
theorem c1_two_run_determinism (ctx ctx2 : TemporalContext)
    (t t2 : SimTapes) (hctx : ctx = ctx2) (ht : t = t2) :
    run_generators ctx t = run_generators ctx2 t2 := by
  subst hctx; subst ht; rfl

/-- Witness for C1 at a concrete morning-rush context and the all-zero
tape. -/
theorem c1_two_run_determinism_witness :
    run_generators ⟨0, 8, true⟩ zeroSimTapes =
      run_generators ⟨0, 8, true⟩ zeroSimTapes :=
  c1_two_run_determinism ⟨0, 8, true⟩ ⟨0, 8, true⟩ zeroSimTapes zeroSimTapes
    rfl rfl

/-- The time-bucket additive term exactly as the specification states it:
a single addend selected by the bucket, on top of the 0.2 floor. -/
def spec_bucket_addend (hour : ℕ) (isWeekday : Bool) : ℚ :=
  if isWeekday then
    if 7 ≤ hour ∧ hour ≤ 9 then 0.5
    else if 17 ≤ hour ∧ hour ≤ 19 then 0.6
    else if 10 ≤ hour ∧ hour ≤ 16 then 0.3
    else if 20 ≤ hour ∧ hour ≤ 22 then 0.2
    else 0
  else
    if 11 ≤ hour ∧ hour ≤ 15 then 0.3
    else if 19 ≤ hour ∧ hour ≤ 23 then 0.4
    else 0

/-- C5: for every Temporal Context the pre-multiplier, pre-noise base
congestion equals the 0.2 floor plus exactly one time-bucket addend from
the documented table; in particular hour 8 on a weekday yields 0.7 and
hour 2 on a weekend yields 0.2. -/
theorem c5_base_congestion_table :
    (∀ (hour : ℕ) (isWeekday : Bool),
      base_congestion hour isWeekday = 0.2 + spec_bucket_addend hour isWeekday) ∧
    base_congestion 8 true = 0.7 ∧ base_congestion 2 false = 0.2 := by
  refine ⟨fun hour wd => ?_, by norm_num [base_congestion],
    by norm_num [base_congestion]⟩
  cases wd <;> simp only [base_congestion, spec_bucket_addend] <;>
    split_ifs <;> norm_num

/-- C8: the on-time computation of the source divides by the vehicle
count with no emptiness guard, so on an empty collection it raises a
`ZeroDivisionError` instead of returning a sentinel or a no-data signal. -/
theorem c8_on_time_empty_raises :
    on_time_percentage [] = Except.error "ZeroDivisionError: division by zero" :=
  rfl

/-- C3: the energy mix percentages are drawn independently and the rest is
`1 - sum` with no clamp, renormalization or re-sampling: at the upper ends
of the three draws (renewable 0.40, nuclear 0.30, gas 0.45) the snapshot
stores a negative `other` share of -0.15, refuting non-negativity. -/
theorem c3_negative_other_pct :
    (simulate_energy_data ⟨0, 12, true⟩ maxMixEnergyDraws).other_percentage
        = -(3 / 20) ∧
    (simulate_energy_data ⟨0, 12, true⟩ maxMixEnergyDraws).other_percentage
        < 0 := by
  constructor <;>
    norm_num [simulate_energy_data, maxMixEnergyDraws, pyUniform, pyRound,
      heat_adjust, demand_multiplier, energy_temp]

/-- C4: every crowding draw raises: `random.choice` does not accept a
`weights` keyword, so the rush-hour branch, the off-rush branch, and hence
the whole transit generator end in a `TypeError` instead of a successful
weighted draw. -/
theorem c4_crowding_draw_raises :
    crowding_draw 8 (1 / 2) = Except.error choiceWeightsErr ∧
    crowding_draw 12 (1 / 2) = Except.error choiceWeightsErr ∧
    simulate_mbta_data ⟨0, 8, true⟩ zeroMbtaTape = Except.error choiceWeightsErr :=
  ⟨rfl, rfl, rfl⟩

/-- C9: the fleet-size draw of every line lies in the per-category range
(15 to 25 for Red and Orange, 8 to 12 for Blue, 6 to 10 otherwise), hence
is at least 6; however the generator itself never returns a record
collection at all, because the first vehicle of the first line already
raises at the crowding draw. -/
theorem c9_fleet_bounds :
    (∀ (line : LineInfo) (n : ℕ),
      6 ≤ num_vehicles line n ∧
      (if line.name = "Red" ∨ line.name = "Orange" then (15 : ℤ)
        else if line.name = "Blue" then 8 else 6) ≤ num_vehicles line n ∧
      num_vehicles line n ≤
        (if line.name = "Red" ∨ line.name = "Orange" then (25 : ℤ)
          else if line.name = "Blue" then 12 else 10)) ∧
    simulate_mbta_data ⟨0, 23, false⟩ zeroMbtaTape = Except.error choiceWeightsErr := by
  refine ⟨fun line n => ?_, rfl⟩
  unfold num_vehicles
  split_ifs <;>
    refine ⟨?_, ?_, ?_⟩ <;>
    first
      | exact le_pyRandint (by norm_num) n
      | exact pyRandint_le (by norm_num) n
      | exact le_trans (by norm_num) (le_pyRandint (by norm_num) n)

/-! ## Helper lemmas for the traffic special-event branch -/

theorem boosted_congestion_of_none {name : String} {roll c : ℚ}
    (h : special_event_of name roll = none) :
    boosted_congestion name roll c = c := by
  unfold special_event_of at h
  unfold boosted_congestion
  split_ifs at h ⊢
  all_goals simp_all

theorem boosted_congestion_of_some {name : String} {roll c : ℚ}
    (h : special_event_of name roll ≠ none) :
    boosted_congestion name roll c = min 1 (c + 0.3) := by
  unfold special_event_of at h
  unfold boosted_congestion
  split_ifs at h ⊢
  all_goals simp_all

/-- C2 counterexample: at the weekend-night context with the all-zero tape
the Fenway Park special event fires, the stored congestion index is boosted
to 0.5, but the stored average speed is 28 (derived from the pre-boost
congestion 0.2), not `35 * (1 - 0.5) = 17.5`. -/
theorem c2_speed_from_final_index_counterexample :
    ∃ r ∈ simulate_traffic_data ⟨0, 2, false⟩ (fun _ => zeroTrafficDraws),
      r.average_speed_mph ≠ 35 * (1 - r.congestion_index) := by
  refine ⟨traffic_record ⟨0, 2, false⟩
    ⟨"Fenway Park", 42.3467, -71.0972, "Fenway"⟩ zeroTrafficDraws, ?_, ?_⟩
  · refine List.mem_map.mpr
      ⟨(17, ⟨"Fenway Park", 42.3467, -71.0972, "Fenway"⟩), ?_, rfl⟩
    repeat first | exact List.Mem.head _ | apply List.Mem.tail
  · norm_num +decide [traffic_record, base_congestion, location_multiplier,
      boosted_congestion, strContains, zeroTrafficDraws, pyRound]

/-- C2 amended: for every record the traffic generator produces there is a
congestion value `c` in `[0, 1]` — the clamped congestion BEFORE the
special-event boost — with `average_speed_mph = round1 (35 * (1 - c))` and
`delay_minutes = round1 (c * 15)`; the stored `congestion_index` is
`round3 c` for records without a special event and `round3 (min 1 (c + 0.3))`
for event records, so the claimed relation to the final stored index holds
only for event-free records and only up to rounding. -/
theorem c2_speed_delay_follow_pre_event_congestion :
    ∀ (ctx : TemporalContext) (tape : ℕ → TrafficDraws) (r : TrafficRecord),
      r ∈ simulate_traffic_data ctx tape →
      ∃ c : ℚ, 0 ≤ c ∧ c ≤ 1 ∧
        r.average_speed_mph = pyRound (35 * (1 - c)) 1 ∧
        r.delay_minutes = pyRound (c * 15) 1 ∧
        (r.special_event = none → r.congestion_index = pyRound c 3) ∧
        (r.special_event ≠ none →
          r.congestion_index = pyRound (min 1 (c + 0.3)) 3) := by
  intro ctx tape r hr
  simp only [simulate_traffic_data, List.mem_map] at hr
  obtain ⟨⟨i, loc⟩, -, rfl⟩ := hr
  refine ⟨max 0 (min 1 (base_congestion ctx.hour ctx.isWeekday *
    location_multiplier loc + (tape i).noise)), le_max_left _ _,
    max_le (by norm_num) (min_le_left _ _), rfl, rfl, ?_, ?_⟩
  · intro h
    exact congrArg (fun q => pyRound q 3) (boosted_congestion_of_none h)
  · intro h
    exact congrArg (fun q => pyRound q 3) (boosted_congestion_of_some h)

/-- Witness for C2 amended at the first configured location on a weekend
night with an event roll of one half. -/
theorem c2_speed_delay_follow_pre_event_congestion_witness :
    ∃ c : ℚ, 0 ≤ c ∧ c ≤ 1 ∧
      (traffic_record ⟨0, 2, false⟩
        ⟨"Downtown Crossing", 42.3555, -71.0604, "Downtown"⟩
        calmTrafficDraws).average_speed_mph = pyRound (35 * (1 - c)) 1 ∧
      (traffic_record ⟨0, 2, false⟩
        ⟨"Downtown Crossing", 42.3555, -71.0604, "Downtown"⟩
        calmTrafficDraws).delay_minutes = pyRound (c * 15) 1 ∧
      ((traffic_record ⟨0, 2, false⟩
        ⟨"Downtown Crossing", 42.3555, -71.0604, "Downtown"⟩
        calmTrafficDraws).special_event = none →
        (traffic_record ⟨0, 2, false⟩
          ⟨"Downtown Crossing", 42.3555, -71.0604, "Downtown"⟩
          calmTrafficDraws).congestion_index = pyRound c 3) ∧
      ((traffic_record ⟨0, 2, false⟩
        ⟨"Downtown Crossing", 42.3555, -71.0604, "Downtown"⟩
        calmTrafficDraws).special_event ≠ none →
        (traffic_record ⟨0, 2, false⟩
          ⟨"Downtown Crossing", 42.3555, -71.0604, "Downtown"⟩
          calmTrafficDraws).congestion_index = pyRound (min 1 (c + 0.3)) 3) :=
  c2_speed_delay_follow_pre_event_congestion ⟨0, 2, false⟩
    (fun _ => calmTrafficDraws) _
    (List.mem_map.mpr
      ⟨(0, ⟨"Downtown Crossing", 42.3555, -71.0604, "Downtown"⟩),
       List.Mem.head _, rfl⟩)

/-- C6: every air quality record has an integer AQI clamped to `[0, 300]`
and its category and color are exactly the classification of its AQI by
the fixed breakpoints; 45 classifies as Good with green and 120 as
Unhealthy for Sensitive Groups with orange. -/
theorem c6_aqi_bounds_and_classification :
    (∀ (ctx : TemporalContext) (tape : ℕ → AqiDraws) (r : AirQualityRecord),
      r ∈ simulate_air_quality_data AQI_STATIONS ctx tape →
        0 ≤ r.aqi ∧ r.aqi ≤ 300 ∧ (r.category, r.color) = classify_aqi r.aqi) ∧
    classify_aqi 45 = ("Good", "green") ∧
    classify_aqi 120 = ("Unhealthy for Sensitive Groups", "orange") := by
  refine ⟨?_, by decide, by decide⟩
  intro ctx tape r hr
  simp only [simulate_air_quality_data, List.mem_map] at hr
  obtain ⟨⟨i, st⟩, -, rfl⟩ := hr
  exact ⟨le_max_left _ _, max_le (by norm_num) (min_le_left _ _), rfl⟩

/-- Witness for C6 at the Boston Common station in morning rush with the
all-zero tape. -/
theorem c6_aqi_bounds_and_classification_witness :
    0 ≤ (aqi_record ⟨0, 8, true⟩
      ⟨"Boston Common", 42.3549, -71.0649, "urban_park"⟩ zeroAqiDraws).aqi ∧
    (aqi_record ⟨0, 8, true⟩
      ⟨"Boston Common", 42.3549, -71.0649, "urban_park"⟩ zeroAqiDraws).aqi ≤ 300 ∧
    ((aqi_record ⟨0, 8, true⟩
       ⟨"Boston Common", 42.3549, -71.0649, "urban_park"⟩ zeroAqiDraws).category,
     (aqi_record ⟨0, 8, true⟩
       ⟨"Boston Common", 42.3549, -71.0649, "urban_park"⟩ zeroAqiDraws).color) =
      classify_aqi (aqi_record ⟨0, 8, true⟩
        ⟨"Boston Common", 42.3549, -71.0649, "urban_park"⟩ zeroAqiDraws).aqi :=
  c6_aqi_bounds_and_classification.1 ⟨0, 8, true⟩ (fun _ => zeroAqiDraws) _
    (List.mem_map.mpr
      ⟨(0, ⟨"Boston Common", 42.3549, -71.0649, "urban_park"⟩),
       List.Mem.head _, rfl⟩)

/-- C7: for every station type outside the recognized seven, the baseline
lookup returns the documented default of 50 and the generator completes,
producing exactly one record for a single-station configuration. -/
theorem c7_unknown_station_type_default :
    ∀ t : String, t ∉ recognized_station_types →
      base_aqi t = 50 ∧
      ∀ (ctx : TemporalContext) (tape : ℕ → AqiDraws) (name : String)
        (lat lon : ℚ),
        (simulate_air_quality_data [⟨name, lat, lon, t⟩] ctx tape).length = 1 := by
  intro t ht
  simp only [recognized_station_types, List.mem_cons, List.not_mem_nil,
    or_false, not_or] at ht
  obtain ⟨h1, h2, h3, h4, h5, h6, h7⟩ := ht
  exact ⟨by simp [base_aqi, h1, h2, h3, h4, h5, h6, h7],
    fun ctx tape name lat lon => rfl⟩

/-- Witness for C7 at the unknown type spaceport. -/
theorem c7_unknown_station_type_default_witness :
    "spaceport" ∉ recognized_station_types ∧
    base_aqi "spaceport" = 50 ∧
    (simulate_air_quality_data [⟨"Test Station", 0, 0, "spaceport"⟩]
      ⟨0, 8, true⟩ (fun _ => zeroAqiDraws)).length = 1 :=
  ⟨by decide,
   (c7_unknown_station_type_default "spaceport" (by decide)).1,
   (c7_unknown_station_type_default "spaceport" (by decide)).2 ⟨0, 8, true⟩
     (fun _ => zeroAqiDraws) "Test Station" 0 0⟩

/-- The heating branch of the energy generator is dead code whenever the
temperature is at least 15, which the uniform draw guarantees. -/
theorem heat_adjust_eq_no_heating {dm temp : ℚ} (h : 15 ≤ temp) :
    heat_adjust dm temp = heat_adjust_no_heating dm temp := by
  unfold heat_adjust heat_adjust_no_heating
  split_ifs with h1 h2
  · rfl
  · linarith
  · rfl

/-- C10: the ambient temperature is uniform on `[15, 30]` Celsius, so the
heating branch (below 5 degrees) is unreachable — the generator coincides
with its heating-free variant — while the cooling branch (above 27
degrees) is reachable, and the reported Fahrenheit temperature always lies
in `[59, 86]`. -/
theorem c10_energy_temperature_bounds :
    (∀ (ctx : TemporalContext) (d : EnergyDraws), 0 ≤ d.tempU → d.tempU ≤ 1 →
      ¬ energy_temp d < 5 ∧
      simulate_energy_data ctx d = simulate_energy_data_no_heating ctx d ∧
      59 ≤ (simulate_energy_data ctx d).temperature_f ∧
      (simulate_energy_data ctx d).temperature_f ≤ 86) ∧
    (∃ d : EnergyDraws, 0 ≤ d.tempU ∧ d.tempU ≤ 1 ∧ 27 < energy_temp d) := by
  constructor
  · intro ctx d h0 h1
    have h15 : 15 ≤ energy_temp d := le_pyUniform (by norm_num) h0
    have h30 : energy_temp d ≤ 30 := pyUniform_le (by norm_num) h1
    refine ⟨by linarith, ?_, ?_, ?_⟩
    · simp only [simulate_energy_data, simulate_energy_data_no_heating,
        heat_adjust_eq_no_heating h15]
    · show (59 : ℚ) ≤ pyRound (energy_temp d * 9 / 5 + 32) 1
      calc (59 : ℚ) = pyRound 59 1 := by norm_num [pyRound]
        _ ≤ pyRound (energy_temp d * 9 / 5 + 32) 1 := pyRound_mono 1 (by linarith)
    · show pyRound (energy_temp d * 9 / 5 + 32) 1 ≤ 86
      calc pyRound (energy_temp d * 9 / 5 + 32) 1
          ≤ pyRound 86 1 := pyRound_mono 1 (by linarith)
        _ = 86 := by norm_num [pyRound]
  · exact ⟨⟨1, 0, 0, 0, 0, 0, 0⟩, by norm_num, le_refl 1,
      by norm_num [energy_temp, pyUniform]⟩

/-- Witness for C10 at noon on a weekday with the all-zero energy tape. -/
theorem c10_energy_temperature_bounds_witness :
    (0 : ℚ) ≤ 0 ∧ (0 : ℚ) ≤ 1 ∧
    (¬ energy_temp ⟨0, 0, 0, 0, 0, 0, 0⟩ < 5 ∧
     simulate_energy_data ⟨0, 12, true⟩ ⟨0, 0, 0, 0, 0, 0, 0⟩ =
       simulate_energy_data_no_heating ⟨0, 12, true⟩ ⟨0, 0, 0, 0, 0, 0, 0⟩ ∧
     59 ≤ (simulate_energy_data ⟨0, 12, true⟩ ⟨0, 0, 0, 0, 0, 0, 0⟩).temperature_f ∧
     (simulate_energy_data ⟨0, 12, true⟩ ⟨0, 0, 0, 0, 0, 0, 0⟩).temperature_f ≤ 86) :=
  ⟨le_refl 0, by norm_num,
   c10_energy_temperature_bounds.1 ⟨0, 12, true⟩ ⟨0, 0, 0, 0, 0, 0, 0⟩
     (le_refl 0) (by norm_num)⟩
